import Mathlib

/-!
Shallow embedding of geoalchemy2/types.py: the Geometry and Geography
column types (class `_GISType` and its two subclasses), the Raster
column type, their SQLAlchemy adaptation hooks (`get_col_spec`,
`column_expression`, `bind_expression`, `result_processor`), and the
reflection-registry assignments performed at module load.

Methods are embedded in explicit state-passing style: each method
returns its result together with the descriptor state after the call.
The Python method bodies contain no assignment to `self`, so each
embedded method returns the descriptor unchanged; this makes the
immutability contract a provable statement rather than an implicit one.

The element classes `WKBElement` and `RasterElement` live in
geoalchemy2/elements.py, which is not part of the sources here; they
are modelled from the specification as opaque holders of raw bytes
(plus the SRID, for `WKBElement`).
-/

/-- Models the error raised when the `srid` constructor argument is not
integer-coercible: the CPython builtin `int` raises `ValueError` (or
`TypeError`) there, which the error taxonomy of the specification calls
`ConfigurationError`. -/
inductive ConfigurationError where
  | invalidSRID
  deriving DecidableEq

/-- Models a Python value that may be passed as the `srid` constructor
argument: an integer, a (finite) float represented by its exact
rational value, or a string. -/
inductive PyVal where
  | int (n : Int)
  | float (q : Rat)
  | str (s : String)
  deriving DecidableEq

/-- Models Python `str.upper()` as used on the `geometry_type`
argument: each character is upper-cased (the strings this layer deals
with are ASCII geometry-kind names). -/
def pyUpper (s : String) : String := ⟨s.data.map Char.toUpper⟩

/-- Models the numeric value of a run of ASCII decimal digits, as read
by the CPython builtin `int`. -/
def decValue (cs : List Char) : Nat :=
  cs.foldl (fun a c => a * 10 + (c.toNat - 48)) 0

/-- Models the whitespace stripping that the CPython builtin `int` performs on
a string argument: leading and trailing whitespace characters are
removed. -/
def pyStrip (cs : List Char) : List Char :=
  ((cs.dropWhile Char.isWhitespace).reverse.dropWhile Char.isWhitespace).reverse

/-- Models the CPython builtin `int` applied to a string: surrounding
whitespace is stripped, an optional single sign may precede a nonempty
run of decimal digits, and anything else raises (surfaced here as
`ConfigurationError`). Digit-group underscores of Python 3.6+ are not
modelled; no behaviour considered here depends on them. -/
def pyIntOfString (s : String) : Except ConfigurationError Int :=
  match pyStrip s.data with
  | '-' :: cs =>
      if cs ≠ [] ∧ cs.all Char.isDigit then .ok (-(decValue cs : Int))
      else .error .invalidSRID
  | '+' :: cs =>
      if cs ≠ [] ∧ cs.all Char.isDigit then .ok (decValue cs)
      else .error .invalidSRID
  | cs =>
      if cs ≠ [] ∧ cs.all Char.isDigit then .ok (decValue cs)
      else .error .invalidSRID

/-- Models the CPython builtin `int` applied to a finite float: the exact
rational value of the float is truncated toward zero. `Int.tdiv` is
T-division (truncation toward zero) and the denominator of a rational is
positive, so this truncates the value toward zero. -/
def floatToInt (q : Rat) : Int := Int.tdiv q.num q.den

/-- Models the CPython builtin `int` for the value kinds that can be passed
as the `srid` argument. -/
def pyInt : PyVal → Except ConfigurationError Int
  | .int n => .ok n
  | .float q => .ok (floatToInt q)
  | .str s => pyIntOfString s

/-- The two concrete subclasses of `_GISType` in types.py: `Geometry`
and `Geography`. They differ only in the two class attributes `name`
and `from_text`. -/
inductive GISVariant where
  | geometry
  | geography
  deriving DecidableEq

/-- Class attribute `name` of types.py: the type name used in CREATE
TABLE, set in the subclasses to "geometry" and "geography". -/
def GISVariant.name : GISVariant → String
  | .geometry => "geometry"
  | .geography => "geography"

/-- Class attribute `from_text` of types.py: the ST_*FromText function
name, set in the subclasses to "ST_GeomFromText" and
"ST_GeogFromText". -/
def GISVariant.from_text : GISVariant → String
  | .geometry => "ST_GeomFromText"
  | .geography => "ST_GeogFromText"

/-- The instance state of a constructed `_GISType` descriptor, as
assigned by `_GISType.__init__` in types.py, together with the variant
tag that selects the subclass-provided class attributes. -/
structure GISType where
  variant : GISVariant
  geometry_type : String
  srid : Int
  dimension : Int
  spatial_index : Bool
  management : Bool
  deriving DecidableEq

/-- Models `_GISType.__init__` of types.py. The source defaults are
`geometry_type` = GEOMETRY, `srid` = -1, `dimension` = 2,
`spatial_index=True`, `management=False`; the embedding passes every
argument explicitly. The body assigns
`self.geometry_type = geometry_type.upper()` and
`self.srid = int(srid)`; when `int(srid)` raises, no object is
constructed, which the `Except` result captures: an error yields no
`GISType` value at all. -/
def GISType.init (variant : GISVariant) (geometry_type : String)
    (srid : PyVal) (dimension : Int) (spatial_index : Bool)
    (management : Bool) : Except ConfigurationError GISType := do
  let s ← pyInt srid
  pure ⟨variant, pyUpper geometry_type, s, dimension, spatial_index, management⟩

/-- Instance-level view of the subclass attribute `name`. -/
def GISType.name (t : GISType) : String := t.variant.name

/-- Instance-level view of the subclass attribute `from_text`. -/
def GISType.from_text (t : GISType) : String := t.variant.from_text

/-- Modelled from the spec: `WKBElement` of geoalchemy2/elements.py is
not among the sources here; per the specification it holds the raw
encoded bytes plus the SRID supplied by the owning column type. -/
structure WKBElement where
  data : List Nat
  srid : Int
  deriving DecidableEq

/-- Modelled from the spec: `RasterElement` of geoalchemy2/elements.py
is not among the sources here; per the specification it holds the raw
encoded bytes unchanged. -/
structure RasterElement where
  data : List Nat
  deriving DecidableEq

/-- A SQLAlchemy SQL expression as far as this layer builds or
inspects one: a bound parameter, a column reference, or a generic
function call `func.<fname>(arg, type_=tag)` whose `type_` tag is the
column type instance that produced it. -/
inductive SQLExpr where
  | bindParam (label : String)
  | columnRef (label : String)
  | funcCall (fname : String) (arg : SQLExpr) (tag : GISType)
  deriving DecidableEq

/-- Function name at the head of an expression, when the expression is
a function call. Used to state that the bind-side function name does
not depend on the bound value. -/
def SQLExpr.headFunctionName : SQLExpr → Option String
  | .funcCall f _ _ => some f
  | _ => none

/-- Models `_GISType.get_col_spec` of types.py:
the percent-format of `self.name`, `self.geometry_type` and `self.srid` as `%s(%s,%d)`. The `%d`
conversion renders the integer in decimal with a leading minus sign
when negative, which is what `toString` on `Int` produces. -/
def GISType.get_col_spec (t : GISType) : String × GISType :=
  (t.name ++ "(" ++ t.geometry_type ++ "," ++ toString t.srid ++ ")", t)

/-- Models `_GISType.column_expression` of types.py:
`func.ST_AsBinary(col, type_=self)`. -/
def GISType.column_expression (t : GISType) (col : SQLExpr) :
    SQLExpr × GISType :=
  (.funcCall "ST_AsBinary" col t, t)

/-- Models `_GISType.bind_expression` of types.py:
`getattr(func, self.from_text)(bindvalue, type_=self)`. -/
def GISType.bind_expression (t : GISType) (bindvalue : SQLExpr) :
    SQLExpr × GISType :=
  (.funcCall t.from_text bindvalue t, t)

/-- Models `_GISType.result_processor` of types.py: returns the
closure `process`, which maps a null driver value to null (the Python
body falls through without a return) and a non-null byte value to
`WKBElement(value, srid=self.srid)`. The closure is returned in
state-passing form as well, closing over the descriptor. -/
def GISType.result_processor (t : GISType) (dialect coltype : String) :
    (Option (List Nat) → Option WKBElement × GISType) × GISType :=
  ((fun value =>
      (match value with
       | some v => some (WKBElement.mk v t.srid)
       | none => none, t)), t)

/-- The instance state of a constructed `Raster` descriptor, as
assigned by `Raster.__init__` in types.py. -/
structure Raster where
  spatial_index : Bool
  deriving DecidableEq

/-- Models `Raster.__init__` of types.py (source default
`spatial_index=True`; the embedding passes it explicitly). -/
def Raster.init (spatial_index : Bool) : Raster := ⟨spatial_index⟩

/-- Models `Raster.get_col_spec` of types.py: returns the fixed string
"raster". -/
def Raster.get_col_spec (r : Raster) : String × Raster := ("raster", r)

/-- Models `Raster.result_processor` of types.py: the returned closure
maps null to null and non-null bytes to `RasterElement(value)`. -/
def Raster.result_processor (r : Raster) (dialect coltype : String) :
    (Option (List Nat) → Option RasterElement × Raster) × Raster :=
  ((fun value =>
      (match value with
       | some v => some (RasterElement.mk v)
       | none => none, r)), r)

/-- The `bind_expression` hook as the framework sees it for `_GISType`
columns: the class overrides it, so the hook is present. -/
def gisBindExpressionHook : Option (GISType → SQLExpr → SQLExpr × GISType) :=
  some GISType.bind_expression

/-- The `column_expression` hook as the framework sees it for
`_GISType` columns: the class overrides it, so the hook is present. -/
def gisColumnExpressionHook : Option (GISType → SQLExpr → SQLExpr × GISType) :=
  some GISType.column_expression

/-- The `bind_expression` hook as the framework sees it for `Raster`
columns: the `Raster` class in types.py defines no such method, so
there is no hook. -/
def rasterBindExpressionHook : Option (Raster → SQLExpr → SQLExpr × Raster) :=
  none

/-- The `column_expression` hook as the framework sees it for `Raster`
columns: the `Raster` class in types.py defines no such method, so
there is no hook. -/
def rasterColumnExpressionHook : Option (Raster → SQLExpr → SQLExpr × Raster) :=
  none

/-- The dispatch performed by the surrounding framework on an optional expression
hook: when the column type defines the hook it is applied, and when it
does not, the expression passes through unchanged. -/
def applyExpressionHook {T : Type}
    (h : Option (T → SQLExpr → SQLExpr × T)) (t : T) (v : SQLExpr) :
    SQLExpr × T :=
  match h with
  | none => (v, t)
  | some f => f t v

/-- A value stored in the PostgreSQL reflection registry
`ischema_names`: one of the three spatial type constructors installed
by types.py, or some unrelated pre-existing entry. -/
inductive SpatialTypeCtor where
  | geometryCls
  | geographyCls
  | rasterCls
  deriving DecidableEq

/-- An entry of the reflection registry: a spatial constructor
installed by this module, or any other constructor already present. -/
inductive ISchemaEntry where
  | spatial (c : SpatialTypeCtor)
  | other (label : String)
  deriving DecidableEq

/-- The reflection registry `ischema_names`, modelled as an
association list with the Python-dict update semantics given by
`dictSet`. -/
abbrev Registry := List (String × ISchemaEntry)

/-- Python dict assignment `d[k] = v`: replace the value at an
existing key, otherwise append a new entry. Total: no error is ever
raised. -/
def dictSet {α : Type} (d : List (String × α)) (k : String) (v : α) :
    List (String × α) :=
  match d with
  | [] => [(k, v)]
  | (k2, v2) :: rest =>
      if k2 = k then (k, v) :: rest else (k2, v2) :: dictSet rest k v

/-- Python dict lookup `d[k]` as an option. -/
def lookupDict {α : Type} (d : List (String × α)) (k : String) : Option α :=
  match d with
  | [] => none
  | (k2, v) :: rest => if k2 = k then some v else lookupDict rest k

/-- Number of entries of the registry carrying the given key. -/
def countKey {α : Type} (d : List (String × α)) (k : String) : Nat :=
  (d.filter (fun p => p.1 = k)).length

/-- Models the module-load registration of types.py:
assignment of `Geometry`, `Geography` and `Raster` into
`ischema_names` under the keys geometry, geography and raster,
executed in that order against the
registry state `d`. -/
def registerSpatialTypes (d : Registry) : Registry :=
  dictSet
    (dictSet
      (dictSet d "geometry" (.spatial .geometryCls))
      "geography" (.spatial .geographyCls))
    "raster" (.spatial .rasterCls)

theorem lookupDict_dictSet_self {α : Type} (d : List (String × α))
    (k : String) (v : α) : lookupDict (dictSet d k v) k = some v := by
  induction d with
  | nil => simp [dictSet, lookupDict]
  | cons p rest ih =>
      obtain ⟨pk, pv⟩ := p
      by_cases h : pk = k
      · simp [dictSet, lookupDict, h]
      · simp [dictSet, lookupDict, h, ih]

theorem lookupDict_dictSet_ne {α : Type} (d : List (String × α))
    (k k2 : String) (v : α) (h : k2 ≠ k) :
    lookupDict (dictSet d k2 v) k = lookupDict d k := by
  induction d with
  | nil => simp [dictSet, lookupDict, h]
  | cons p rest ih =>
      obtain ⟨pk, pv⟩ := p
      simp only [dictSet]
      by_cases h2 : pk = k2
      · have hpk : ¬pk = k := by rw [h2]; exact h
        rw [if_pos h2]
        simp only [lookupDict]
        rw [if_neg h, if_neg hpk]
      · rw [if_neg h2]
        simp only [lookupDict]
        by_cases h3 : pk = k
        · rw [if_pos h3, if_pos h3]
        · rw [if_neg h3, if_neg h3, ih]

theorem dictSet_eq_self_of_lookup {α : Type} (d : List (String × α))
    (k : String) (v : α) (h : lookupDict d k = some v) :
    dictSet d k v = d := by
  induction d with
  | nil => simp [lookupDict] at h
  | cons p rest ih =>
      obtain ⟨pk, pv⟩ := p
      by_cases h2 : pk = k
      · simp only [lookupDict, if_pos h2, Option.some.injEq] at h
        subst h
        simp [dictSet, h2]
      · simp only [lookupDict, if_neg h2] at h
        simp [dictSet, h2, ih h]

theorem countKey_cons_self {α : Type} (pk : String) (pv : α)
    (rest : List (String × α)) (k : String) (h : pk = k) :
    countKey ((pk, pv) :: rest) k = countKey rest k + 1 := by
  simp [countKey, List.filter_cons, h]

theorem countKey_cons_ne {α : Type} (pk : String) (pv : α)
    (rest : List (String × α)) (k : String) (h : pk ≠ k) :
    countKey ((pk, pv) :: rest) k = countKey rest k := by
  simp [countKey, List.filter_cons, h]

theorem countKey_dictSet_self {α : Type} (d : List (String × α))
    (k : String) (v : α) :
    countKey (dictSet d k v) k = max (countKey d k) 1 := by
  induction d with
  | nil => simp [dictSet, countKey]
  | cons p rest ih =>
      obtain ⟨pk, pv⟩ := p
      simp only [dictSet]
      by_cases h : pk = k
      · rw [if_pos h, countKey_cons_self k v rest k rfl,
            countKey_cons_self pk pv rest k h]
        omega
      · rw [if_neg h, countKey_cons_ne pk pv (dictSet rest k v) k h,
            countKey_cons_ne pk pv rest k h, ih]

theorem countKey_dictSet_ne {α : Type} (d : List (String × α))
    (k k2 : String) (v : α) (h : k2 ≠ k) :
    countKey (dictSet d k2 v) k = countKey d k := by
  induction d with
  | nil =>
      simp only [dictSet]
      rw [countKey_cons_ne k2 v [] k h]
  | cons p rest ih =>
      obtain ⟨pk, pv⟩ := p
      simp only [dictSet]
      by_cases h2 : pk = k2
      · have hpk : pk ≠ k := by rw [h2]; exact h
        rw [if_pos h2, countKey_cons_ne k2 v rest k h,
            countKey_cons_ne pk pv rest k hpk]
      · by_cases h3 : pk = k
        · rw [if_neg h2, countKey_cons_self pk pv (dictSet rest k2 v) k h3,
              countKey_cons_self pk pv rest k h3, ih]
        · rw [if_neg h2, countKey_cons_ne pk pv (dictSet rest k2 v) k h3,
              countKey_cons_ne pk pv rest k h3, ih]

theorem countKey_le_one_of_nodup {α : Type} (d : List (String × α))
    (k : String) (h : (d.map Prod.fst).Nodup) : countKey d k ≤ 1 := by
  induction d with
  | nil => simp [countKey]
  | cons p rest ih =>
      obtain ⟨pk, pv⟩ := p
      rw [List.map_cons, List.nodup_cons] at h
      by_cases hk : pk = k
      · have hzero : countKey rest k = 0 := by
          rw [countKey, List.length_eq_zero, List.filter_eq_nil_iff]
          intro q hq
          simp only [decide_eq_true_eq]
          intro hqk
          apply h.1
          have hm : q.1 ∈ rest.map Prod.fst := List.mem_map_of_mem Prod.fst hq
          rw [hqk, ← hk] at hm
          exact hm
        rw [countKey_cons_self pk pv rest k hk, hzero]
      · rw [countKey_cons_ne pk pv rest k hk]
        exact ih h.2

theorem registerSpatialTypes_eq_self {d : Registry}
    (h1 : lookupDict d "geometry" = some (.spatial .geometryCls))
    (h2 : lookupDict d "geography" = some (.spatial .geographyCls))
    (h3 : lookupDict d "raster" = some (.spatial .rasterCls)) :
    registerSpatialTypes d = d := by
  unfold registerSpatialTypes
  rw [dictSet_eq_self_of_lookup _ _ _ h1, dictSet_eq_self_of_lookup _ _ _ h2,
      dictSet_eq_self_of_lookup _ _ _ h3]

/-- C1: the decoding closure produced by `result_processor` maps a
null driver value to null for Geometry, Geography and Raster alike,
and maps non-null raw bytes to a `WKBElement` carrying exactly the
configured SRID of the column and the input bytes unchanged (for Raster, to
a `RasterElement` carrying the unchanged bytes). -/
theorem C1_result_processor_decoding
    (t : GISType) (dialect coltype : String) (b : List Nat) (r : Raster) :
    ((t.result_processor dialect coltype).1 none).1 = none ∧
    ((t.result_processor dialect coltype).1 (some b)).1
        = some (WKBElement.mk b t.srid) ∧
    ((r.result_processor dialect coltype).1 none).1 = none ∧
    ((r.result_processor dialect coltype).1 (some b)).1
        = some (RasterElement.mk b) :=
  ⟨rfl, rfl, rfl, rfl⟩

/-- C2: `bind_expression` wraps every bound value in a function call
tagged with the own type of the column; the function name is determined by
the variant alone — "ST_GeomFromText" for every Geometry descriptor
and "ST_GeogFromText" for every Geography descriptor — and does not
depend on the bound value. -/
theorem C2_bind_expression_function_name :
    (∀ (gt : String) (srid dim : Int) (si mg : Bool) (v : SQLExpr),
      ((GISType.mk .geometry gt srid dim si mg).bind_expression v).1
        = SQLExpr.funcCall "ST_GeomFromText" v
            (GISType.mk .geometry gt srid dim si mg)) ∧
    (∀ (gt : String) (srid dim : Int) (si mg : Bool) (v : SQLExpr),
      ((GISType.mk .geography gt srid dim si mg).bind_expression v).1
        = SQLExpr.funcCall "ST_GeogFromText" v
            (GISType.mk .geography gt srid dim si mg)) ∧
    (∀ (t : GISType) (v w : SQLExpr),
      ((t.bind_expression v).1).headFunctionName
        = ((t.bind_expression w).1).headFunctionName) :=
  ⟨fun _ _ _ _ _ _ => rfl, fun _ _ _ _ _ _ => rfl, fun _ _ _ => rfl⟩

/-- C3: `column_expression` returns, for every column reference
expression — including one nested inside a larger expression — exactly
the function call `ST_AsBinary(col)` tagged with the same column
type. -/
theorem C3_column_expression (t : GISType) (col : SQLExpr) :
    (t.column_expression col).1 = SQLExpr.funcCall "ST_AsBinary" col t :=
  rfl

/-- C4: `get_col_spec` returns the string
"<typeName>(<geometryKind>,<srid>)" built from the stored name,
geometry kind and srid; in particular a Geometry constructed with
geometry type "POINT" and srid 4326 yields "geometry(POINT,4326)", and
a Geography constructed with geometry type "LINESTRING" and the source
default srid -1 yields "geography(LINESTRING,-1)". -/
theorem C4_get_col_spec :
    (∀ t : GISType, (t.get_col_spec).1
        = t.name ++ "(" ++ t.geometry_type ++ "," ++ toString t.srid ++ ")") ∧
    Except.map (fun t => (GISType.get_col_spec t).1)
        (GISType.init .geometry "POINT" (.int 4326) 2 true false)
      = .ok "geometry(POINT,4326)" ∧
    Except.map (fun t => (GISType.get_col_spec t).1)
        (GISType.init .geography "LINESTRING" (.int (-1)) 2 true false)
      = .ok "geography(LINESTRING,-1)" :=
  ⟨fun _ => rfl, rfl, rfl⟩

/-- C5: constructing a descriptor with an srid that is not
integer-coercible fails with the configuration error at construction
(column-declaration) time: whenever the coercion fails the constructor
returns that error and no descriptor value — not even a partially
initialized one — is produced; with srid "not-a-number" it fails
concretely. -/
theorem C5_invalid_srid_rejected_at_construction :
    (∀ (variant : GISVariant) (gt : String) (s : PyVal) (dim : Int)
        (si mg : Bool) (e : ConfigurationError),
      pyInt s = .error e →
        GISType.init variant gt s dim si mg = .error e) ∧
    GISType.init .geometry "GEOMETRY" (.str "not-a-number") 2 true false
      = .error .invalidSRID := by
  constructor
  · intro variant gt s dim si mg e h
    simp [GISType.init, h, Except.bind]
  · rfl

/-- Witness for C5 at a concrete input: srid "abc" is rejected. -/
theorem C5_invalid_srid_rejected_at_construction_witness :
    GISType.init .geography "Point" (.str "abc") 3 false true
      = .error .invalidSRID :=
  C5_invalid_srid_rejected_at_construction.1 .geography "Point"
    (.str "abc") 3 false true .invalidSRID rfl

/-- C6: for every Raster descriptor, whatever its spatial_index flag,
`get_col_spec` returns exactly "raster"; the Raster class defines
neither a bind-expression nor a column-expression hook, so under the
dispatch of the framework the expression passes through unchanged on write
and on direct read. -/
theorem C6_raster_col_spec_and_hooks (r : Raster) (v : SQLExpr) :
    (r.get_col_spec).1 = "raster" ∧
    rasterBindExpressionHook = none ∧
    rasterColumnExpressionHook = none ∧
    (applyExpressionHook rasterBindExpressionHook r v).1 = v ∧
    (applyExpressionHook rasterColumnExpressionHook r v).1 = v :=
  ⟨rfl, rfl, rfl, rfl, rfl⟩

/-- C7: for every geometry-kind string and every integer srid
(including negative values), construction succeeds and stores the
upper-cased geometry kind and exactly the given srid (the srid
round-trips), along with the other arguments unchanged. -/
theorem C7_constructor_stores_upper_and_srid
    (variant : GISVariant) (gt : String) (srid dim : Int) (si mg : Bool) :
    GISType.init variant gt (.int srid) dim si mg
      = .ok (GISType.mk variant (pyUpper gt) srid dim si mg) :=
  rfl

/-- C8: running the spatial-type registration a second time is
idempotent: starting from any registry with pairwise-distinct keys,
after two runs the registry holds exactly one entry for each of the
keys "geometry", "geography" and "raster", those entries map to the
constructors installed by the (second) registration, and the second
run leaves the registry exactly as the first run left it; the
operation is total, so no error is raised. -/
theorem C8_registration_idempotent (d : Registry)
    (h : (d.map Prod.fst).Nodup) :
    countKey (registerSpatialTypes (registerSpatialTypes d)) "geometry" = 1 ∧
    countKey (registerSpatialTypes (registerSpatialTypes d)) "geography" = 1 ∧
    countKey (registerSpatialTypes (registerSpatialTypes d)) "raster" = 1 ∧
    lookupDict (registerSpatialTypes (registerSpatialTypes d)) "geometry"
      = some (.spatial .geometryCls) ∧
    lookupDict (registerSpatialTypes (registerSpatialTypes d)) "geography"
      = some (.spatial .geographyCls) ∧
    lookupDict (registerSpatialTypes (registerSpatialTypes d)) "raster"
      = some (.spatial .rasterCls) ∧
    registerSpatialTypes (registerSpatialTypes d) = registerSpatialTypes d := by
  have hg : lookupDict (registerSpatialTypes d) "geometry"
      = some (ISchemaEntry.spatial .geometryCls) := by
    unfold registerSpatialTypes
    rw [lookupDict_dictSet_ne _ _ _ _ (by decide),
        lookupDict_dictSet_ne _ _ _ _ (by decide),
        lookupDict_dictSet_self]
  have hgg : lookupDict (registerSpatialTypes d) "geography"
      = some (ISchemaEntry.spatial .geographyCls) := by
    unfold registerSpatialTypes
    rw [lookupDict_dictSet_ne _ _ _ _ (by decide), lookupDict_dictSet_self]
  have hr : lookupDict (registerSpatialTypes d) "raster"
      = some (ISchemaEntry.spatial .rasterCls) := by
    unfold registerSpatialTypes
    rw [lookupDict_dictSet_self]
  have hidem : registerSpatialTypes (registerSpatialTypes d)
      = registerSpatialTypes d := registerSpatialTypes_eq_self hg hgg hr
  have hcount : ∀ k : String, countKey d k ≤ 1 :=
    fun k => countKey_le_one_of_nodup d k h
  have hcg : countKey (registerSpatialTypes d) "geometry" = 1 := by
    unfold registerSpatialTypes
    rw [countKey_dictSet_ne _ _ _ _ (by decide),
        countKey_dictSet_ne _ _ _ _ (by decide),
        countKey_dictSet_self]
    have := hcount "geometry"
    omega
  have hcgg : countKey (registerSpatialTypes d) "geography" = 1 := by
    unfold registerSpatialTypes
    rw [countKey_dictSet_ne _ _ _ _ (by decide), countKey_dictSet_self,
        countKey_dictSet_ne _ _ _ _ (by decide)]
    have := hcount "geography"
    omega
  have hcr : countKey (registerSpatialTypes d) "raster" = 1 := by
    unfold registerSpatialTypes
    rw [countKey_dictSet_self, countKey_dictSet_ne _ _ _ _ (by decide),
        countKey_dictSet_ne _ _ _ _ (by decide)]
    have := hcount "raster"
    omega
  rw [hidem]
  exact ⟨hcg, hcgg, hcr, hg, hgg, hr, rfl⟩

/-- Witness for C8 at a concrete registry: the empty registry, whose
key list is trivially duplicate-free. -/
theorem C8_registration_idempotent_witness :
    countKey (registerSpatialTypes (registerSpatialTypes ([] : Registry)))
        "geometry" = 1 ∧
    countKey (registerSpatialTypes (registerSpatialTypes ([] : Registry)))
        "geography" = 1 ∧
    countKey (registerSpatialTypes (registerSpatialTypes ([] : Registry)))
        "raster" = 1 ∧
    lookupDict (registerSpatialTypes (registerSpatialTypes ([] : Registry)))
        "geometry" = some (.spatial .geometryCls) ∧
    lookupDict (registerSpatialTypes (registerSpatialTypes ([] : Registry)))
        "geography" = some (.spatial .geographyCls) ∧
    lookupDict (registerSpatialTypes (registerSpatialTypes ([] : Registry)))
        "raster" = some (.spatial .rasterCls) ∧
    registerSpatialTypes (registerSpatialTypes ([] : Registry))
      = registerSpatialTypes ([] : Registry) :=
  C8_registration_idempotent [] (by simp)

/-- C9: every operation of a constructed descriptor — `get_col_spec`,
`column_expression`, `bind_expression`, `result_processor`, and the
decoding closure the latter returns, as well as the Raster operations
— leaves the descriptor state exactly as it was: descriptors are
immutable after construction. -/
theorem C9_operations_preserve_state
    (t : GISType) (c v : SQLExpr) (dialect coltype : String)
    (val : Option (List Nat)) (r : Raster) (rv : Option (List Nat)) :
    (t.get_col_spec).2 = t ∧
    (t.column_expression c).2 = t ∧
    (t.bind_expression v).2 = t ∧
    (t.result_processor dialect coltype).2 = t ∧
    ((t.result_processor dialect coltype).1 val).2 = t ∧
    (r.get_col_spec).2 = r ∧
    (r.result_processor dialect coltype).2 = r ∧
    ((r.result_processor dialect coltype).1 rv).2 = r :=
  ⟨rfl, rfl, rfl, rfl, rfl, rfl, rfl, rfl⟩

/-- C10: the srid coercion accepts whatever integer coercion accepts:
every float input succeeds and is stored truncated toward zero (equal
to the floor for non-negative values and to the ceiling for
non-positive ones; concretely 4326.9 stores 4326), and the numeric
string "4326" is parsed and stored as the integer 4326 rather than
rejected. -/
theorem C10_srid_coercion_accepts_floats_and_strings :
    (∀ (variant : GISVariant) (gt : String) (q : Rat) (dim : Int)
        (si mg : Bool),
      GISType.init variant gt (.float q) dim si mg
        = .ok (GISType.mk variant (pyUpper gt) (floatToInt q) dim si mg)) ∧
    (∀ q : Rat, 0 ≤ q → floatToInt q = ⌊q⌋) ∧
    (∀ q : Rat, q ≤ 0 → floatToInt q = ⌈q⌉) ∧
    floatToInt (mkRat 43269 10) = 4326 ∧
    floatToInt (mkRat (-43269) 10) = -4326 ∧
    pyInt (.str "4326") = .ok 4326 ∧
    (∀ (variant : GISVariant) (gt : String) (dim : Int) (si mg : Bool),
      GISType.init variant gt (.str "4326") dim si mg
        = .ok (GISType.mk variant (pyUpper gt) 4326 dim si mg)) := by
  have hpos : ∀ r : Rat, 0 ≤ r → floatToInt r = ⌊r⌋ := by
    intro r hr
    rw [Rat.floor_def, floatToInt]
    exact Int.tdiv_eq_ediv (Rat.num_nonneg.mpr hr) (by positivity)
  have hneg : ∀ r : Rat, r ≤ 0 → floatToInt r = ⌈r⌉ := by
    intro r hr
    have h1 : floatToInt r = -(floatToInt (-r)) := by
      show Int.tdiv r.num r.den = -(Int.tdiv (-r).num (-r).den)
      rw [Rat.neg_num, Rat.neg_den, Int.neg_tdiv, Int.neg_neg]
    rw [h1, hpos (-r) (neg_nonneg.mpr hr), Int.floor_neg, neg_neg]
  exact ⟨fun _ _ _ _ _ _ => rfl, hpos, hneg, rfl, rfl, rfl,
    fun _ _ _ _ _ => rfl⟩

/-- Witness for C10 at concrete inputs: 9/2 truncates to its floor and
-9/2 truncates to its ceiling. -/
theorem C10_srid_coercion_accepts_floats_and_strings_witness :
    floatToInt (mkRat 9 2) = ⌊(mkRat 9 2 : Rat)⌋ ∧
    floatToInt (mkRat (-9) 2) = ⌈(mkRat (-9) 2 : Rat)⌉ :=
  ⟨C10_srid_coercion_accepts_floats_and_strings.2.1 (mkRat 9 2) (by decide),
   C10_srid_coercion_accepts_floats_and_strings.2.2.1 (mkRat (-9) 2)
     (by decide)⟩
